import Mathlib

/-!
Verification of the container lifecycle manager, image builder and probe
engine of the tomodachi-testcontainers repository, against a shallow
embedding of src/tomodachi_testcontainers/containers/common.py and of the
probe-engine boundary described by the specification.

Modelling conventions:
- Python exceptions are values of PyError (a kind name plus a message);
  a fallible Python call becomes a Lean function returning
  Sys -> Sys x Except PyError A, so that state mutations made before a
  raise survive it, exactly as in Python.
- A Python string-or-None value (os.getenv, DockerClient.host()) is an
  Option String; Python truthiness of such a value (used by the source in
  conditions such as "if not host" and "network or ... or bridge") is
  envTruthy: the value is present and non-empty.
- The container engine is an explicit state: the set of containers it
  knows (each with its logs, restart count and per-network attributes),
  the pulls it performed, and the images it stores.
-/

/-- A Python exception, identified by its type name and message; the code
under verification must preserve these verbatim when re-raising. -/
structure PyError where
  kind : String
  msg : String
deriving Repr, DecidableEq

/-- Python truthiness of an optional string: present and non-empty. -/
def envTruthy (v : Option String) : Bool :=
  v.getD "" ≠ ""

/-- Network attributes of a container on one network, as reported by the
engine inspection under NetworkSettings.Networks. -/
structure NetworkAttrs where
  ipAddress : String
  gateway : String
deriving Repr, DecidableEq

/-- One container as the engine sees it: identifier, accumulated log
lines, how often it was restarted, and its per-network attributes. -/
structure EngineContainer where
  id : Nat
  logLines : List String
  restartCount : Nat
  networks : List (String × NetworkAttrs)
deriving Repr, DecidableEq

/-- The container engine state reachable through the docker client. -/
structure EngineState where
  nextId : Nat
  containers : List EngineContainer
  pulls : List String
deriving Repr, DecidableEq

/-- The fields of a DockerContainer lifecycle manager relevant here:
the configured image, the value the abstract hook
log_message_on_container_start returns, the network name fixed in
init, the network keyword argument forwarded to the base class in
init, the held wrapped-container handle, and the lines written to the
injected logger. -/
structure ManagerState where
  image : String
  startMessage : String
  network : String
  superNetworkKwarg : String
  container : Option Nat
  loggerLines : List String
deriving Repr, DecidableEq

/-- The combined system a manager method acts on. -/
structure Sys where
  engine : EngineState
  mgr : ManagerState
deriving Repr, DecidableEq

/-- DockerContainer.init: the network name is the explicit argument if
truthy, else the TESTCONTAINER_DOCKER_NETWORK environment variable if
truthy, else the literal bridge; the same value is forwarded to the base
class as the network keyword argument. -/
def dockerContainerInit (image startMessage : String)
    (networkArg envNetwork : Option String) : ManagerState :=
  let n := if envTruthy networkArg then networkArg.getD ""
           else if envTruthy envNetwork then envNetwork.getD ""
           else "bridge"
  { image := image
    startMessage := startMessage
    network := n
    superNetworkKwarg := n
    container := none
    loggerLines := [] }

/-- DockerContainer.get_container_host_ip, with the values the engine
round-trips would produce passed in: the client host, the
inside_container() probe, the DOCKER_HOST environment variable, and the
gateway and internal IPs of the wrapped container. -/
def get_container_host_ip (host : Option String) (insideContainer : Bool)
    (dockerHostEnv : Option String) (gatewayIp internalIp : String) : String :=
  if ¬ envTruthy host then "localhost"
  else if insideContainer ∧ ¬ envTruthy dockerHostEnv then
    if gatewayIp = host.getD "" then internalIp else gatewayIp
  else host.getD ""

/-- The host-IP resolution algorithm as the specification words it:
absent host gives the literal loopback name; a caller inside a container
with no explicit engine-location override compares the gateway IP with
the engine host, returning the internal IP on equality and the gateway
IP otherwise; all other cases return the engine host unchanged. -/
def hostIpResolutionSpec (host : Option String) (insideContainer : Bool)
    (dockerHostEnv : Option String) (gatewayIp internalIp : String) : String :=
  match host with
  | none => "localhost"
  | some h =>
    if h = "" then "localhost"
    else if insideContainer = true ∧ dockerHostEnv.getD "" = "" then
      if gatewayIp = h then internalIp else gatewayIp
    else h

/-- logger.info: append one line to the injected logger. -/
def logInfo (line : String) (s : Sys) : Sys :=
  { s with mgr := { s.mgr with loggerLines := s.mgr.loggerLines ++ [line] } }

/-- Engine inspection: the container with the given identifier, if the
engine still knows it. -/
def findContainer (eng : EngineState) (id : Nat) : Option EngineContainer :=
  eng.containers.find? (fun c => c.id = id)

/-- container.logs(timestamps=True): the accumulated log lines, or a
NotFound error when the engine no longer knows the container. -/
def engineLogs (eng : EngineState) (id : Nat) : Except PyError (List String) :=
  match findContainer eng id with
  | some c => .ok c.logLines
  | none => .error ⟨"NotFound", "no such container"⟩

/-- get_wrapped_container from the testcontainers base class: returns
the held handle, possibly none. -/
def get_wrapped_container (s : Sys) : Option Nat :=
  s.mgr.container

/-- DockerContainer.forward_container_logs_to_logger: when a wrapped
container is held, read its full timestamped log stream and forward each
line to the logger; otherwise do nothing. -/
def forward_container_logs_to_logger (s : Sys) : Sys × Except PyError Unit :=
  match get_wrapped_container s with
  | none => (s, .ok ())
  | some id =>
    match engineLogs s.engine id with
    | .error e => (s, .error e)
    | .ok logs => (logs.foldl (fun t l => logInfo l t) s, .ok ())

/-- container.remove(force=True, v=True) through the engine: removes the
container and its volumes; the engine raises NotFound when it does not
know the container. -/
def engineRemove (id : Nat) (s : Sys) : Sys × Except PyError Unit :=
  match findContainer s.engine id with
  | some _ =>
    ({ s with engine :=
        { s.engine with containers := s.engine.containers.filter (fun c => c.id ≠ id) } },
     .ok ())
  | none => (s, .error ⟨"NotFound", "no such container"⟩)

/-- stop(force=True, delete_volume=True) of the testcontainers base
class: force-remove the wrapped container when one is held. -/
def baseStop (s : Sys) : Sys × Except PyError Unit :=
  match s.mgr.container with
  | none => (s, .ok ())
  | some id => engineRemove id s

/-- DockerContainer.internalStop: delegate to the base-class stop with
force and volume deletion, then drop the handle. -/
def internalStop (s : Sys) : Sys × Except PyError Unit :=
  match baseStop s with
  | (t, .error e) => (t, .error e)
  | (t, .ok ()) => ({ t with mgr := { t.mgr with container := none } }, .ok ())

/-- DockerContainer.stop: forward the captured log history to the
logger, then destroy the container. -/
def stop (s : Sys) : Sys × Except PyError Unit :=
  match forward_container_logs_to_logger s with
  | (t, .error e) => (t, .error e)
  | (t, .ok ()) => internalStop t

/-- n successive calls of stop on the same manager, aborting at the
first raise (as a test sequence would). -/
def stopN : Nat → Sys → Sys × Except PyError Unit
  | 0, s => (s, .ok ())
  | n + 1, s =>
    match stop s with
    | (t, .error e) => (t, .error e)
    | (t, .ok ()) => stopN n t

/-- DockerContainer.internalStart: log the pull message, then
docker_client.run(image, command, detach, environment, ports, name,
volumes, kwargs) - which pulls the image and creates and starts the
container or raises, modelled by the runOutcome argument - record the
returned handle and log the started message. The created container
carries the network keyword argument the manager forwarded to the base
class in init, with the attributes the engine assigns, and starts with
the given log lines. -/
def internalStart (runOutcome : Option PyError) (initLogs : List String)
    (netAttrs : NetworkAttrs) (s : Sys) : Sys × Except PyError Unit :=
  let s := logInfo ("Pulling image: " ++ s.mgr.image) s
  match runOutcome with
  | some e => (s, .error e)
  | none =>
    let id := s.engine.nextId
    let created : EngineContainer :=
      { id := id, logLines := initLogs, restartCount := 0,
        networks := [(s.mgr.superNetworkKwarg, netAttrs)] }
    let eng : EngineState :=
      { nextId := id + 1, containers := s.engine.containers ++ [created],
        pulls := s.engine.pulls ++ [s.mgr.image] }
    let s := { s with engine := eng, mgr := { s.mgr with container := some id } }
    (logInfo ("Container started: " ++ toString id) s, .ok ())

/-- The try-body of DockerContainer.start: internalStart, then call the
abstract hook log_message_on_container_start (which may itself raise,
modelled by hookOutcome) and log its message when non-empty. -/
def startTryBody (runOutcome hookOutcome : Option PyError) (initLogs : List String)
    (netAttrs : NetworkAttrs) (s : Sys) : Sys × Except PyError Unit :=
  match internalStart runOutcome initLogs netAttrs s with
  | (t, .error e) => (t, .error e)
  | (t, .ok ()) =>
    match hookOutcome with
    | some e => (t, .error e)
    | none =>
      ((if t.mgr.startMessage ≠ "" then logInfo t.mgr.startMessage t else t), .ok ())

/-- DockerContainer.start: run the try-body; on any raise, first forward
the container logs to the logger, then re-raise (a raise during the
forwarding itself would propagate instead, as in Python). -/
def start (runOutcome hookOutcome : Option PyError) (initLogs : List String)
    (netAttrs : NetworkAttrs) (s : Sys) : Sys × Except PyError Unit :=
  match startTryBody runOutcome hookOutcome initLogs netAttrs s with
  | (t, .ok ()) => (t, .ok ())
  | (t, .error e) =>
    match forward_container_logs_to_logger t with
    | (u, .error e2) => (u, .error e2)
    | (u, .ok ()) => (u, .error e)

/-- Bump the restart count of the container with the given identifier,
leaving every other container alone (the engine restart effect). -/
def bumpRestart (id : Nat) (c : EngineContainer) : EngineContainer :=
  if c.id = id then { c with restartCount := c.restartCount + 1 } else c

/-- DockerContainer.restart: get_wrapped_container().restart() - an
AttributeError on a never-started manager (the handle is None), the
engine restart of the wrapped container otherwise. -/
def restart (s : Sys) : Sys × Except PyError Unit :=
  match s.mgr.container with
  | none => (s, .error ⟨"AttributeError", "NoneType has no attribute restart"⟩)
  | some id =>
    match findContainer s.engine id with
    | none => (s, .error ⟨"NotFound", "no such container"⟩)
    | some _ =>
      ({ s with engine :=
          { s.engine with containers := s.engine.containers.map (bumpRestart id) } },
       .ok ())

/-- DockerContainer.get_container_internal_ip: inspect the wrapped
container and read NetworkSettings.Networks[self.network].IPAddress. -/
def get_container_internal_ip (s : Sys) : Except PyError String :=
  match s.mgr.container with
  | none => .error ⟨"AttributeError", "NoneType has no attribute id"⟩
  | some id =>
    match findContainer s.engine id with
    | none => .error ⟨"NotFound", "no such container"⟩
    | some c =>
      match c.networks.lookup s.mgr.network with
      | none => .error ⟨"KeyError", s.mgr.network⟩
      | some a => .ok a.ipAddress

/-- DockerContainer.get_container_gateway_ip: inspect the wrapped
container and read NetworkSettings.Networks[self.network].Gateway. -/
def get_container_gateway_ip (s : Sys) : Except PyError String :=
  match s.mgr.container with
  | none => .error ⟨"AttributeError", "NoneType has no attribute id"⟩
  | some id =>
    match findContainer s.engine id with
    | none => .error ⟨"NotFound", "no such container"⟩
    | some c =>
      match c.networks.lookup s.mgr.network with
      | none => .error ⟨"KeyError", s.mgr.network⟩
      | some a => .ok a.gateway

/-- A manager state is coherent when any held handle still exists in the
engine; fresh managers (no handle) and started managers satisfy it. -/
def HandleLive (s : Sys) : Prop :=
  ∀ id, s.mgr.container = some id → (findContainer s.engine id).isSome

/-- The container logs that exist from the manager's point of view: the
wrapped container's log stream when a handle is held and the engine still
knows the container, nothing otherwise. -/
def flushedLogs (s : Sys) : List String :=
  match s.mgr.container with
  | none => []
  | some id => ((engineLogs s.engine id).toOption).getD []

/-- The result of a finished subprocess: exit code and captured standard
output. -/
structure ProcResult where
  exitCode : Nat
  stdout : String
deriving Repr, DecidableEq

/-- An image handle as the docker client returns it. -/
structure DockerImageHandle where
  imageId : String
deriving Repr, DecidableEq

/-- The arguments EphemeralDockerImage passes to the native build API of
the engine client: docker_client.client.images.build(dockerfile, path,
target, forcerm). -/
structure BuildApiCall where
  dockerfile : Option String
  path : String
  target : Option String
  forcerm : Bool
deriving Repr, DecidableEq

/-- The configuration fields of EphemeralDockerImage after init:
dockerfile is str(dockerfile) when given, context is str(context) when
given and the literal dot otherwise, target is kept as passed. -/
structure EphemeralImageCfg where
  dockerfile : Option String
  context : String
  target : Option String
deriving Repr, DecidableEq

/-- EphemeralDockerImage.init over the optional dockerfile, context and
target arguments. -/
def ephemeralImageInit (dockerfile : Option String) (context : Option String)
    (target : Option String) : EphemeralImageCfg :=
  { dockerfile := dockerfile,
    context := if envTruthy context then context.getD "" else ".",
    target := target }

/-- The argument list EphemeralDockerImage.buildWithDockerBuildkit hands
to subprocess.run: docker build -q --rm=true, then -f dockerfile when a
dockerfile is set, then --target stage when a target is set, then the
build context last. -/
def buildkitCmd (cfg : EphemeralImageCfg) : List String :=
  ["docker", "build", "-q", "--rm=true"]
    ++ (if envTruthy cfg.dockerfile then ["-f", cfg.dockerfile.getD ""] else [])
    ++ (if envTruthy cfg.target then ["--target", cfg.target.getD ""] else [])
    ++ [cfg.context]

/-- EphemeralDockerImage.buildWithDockerBuildkit: run the CLI command
with check=True - a non-zero exit raises CalledProcessError - then strip
the captured standard output and resolve the image identifier through
docker_client.client.images.get. The subprocess and the client are the
external collaborators, passed as functions. -/
def buildWithDockerBuildkit (runProc : List String → ProcResult)
    (imagesGet : String → Except PyError DockerImageHandle)
    (cfg : EphemeralImageCfg) : Except PyError DockerImageHandle :=
  let r := runProc (buildkitCmd cfg)
  if r.exitCode ≠ 0 then
    .error ⟨"CalledProcessError", "non-zero exit status " ++ toString r.exitCode⟩
  else
    imagesGet r.stdout.trim

/-- EphemeralDockerImage.buildWithDockerClient: call the native build
API of the engine client with the dockerfile path, the build context
path, the optional target, and forcerm=True. -/
def buildWithDockerClient (buildApi : BuildApiCall → Except PyError DockerImageHandle)
    (cfg : EphemeralImageCfg) : Except PyError DockerImageHandle :=
  buildApi { dockerfile := cfg.dockerfile, path := cfg.context,
             target := cfg.target, forcerm := true }

/-- EphemeralDockerImage.build_image: when the DOCKER_BUILDKIT
environment variable is truthy, build through the external builder CLI;
otherwise build through the native engine API. -/
def build_image (dockerBuildkitEnv : Option String)
    (runProc : List String → ProcResult)
    (buildApi : BuildApiCall → Except PyError DockerImageHandle)
    (imagesGet : String → Except PyError DockerImageHandle)
    (cfg : EphemeralImageCfg) : Except PyError DockerImageHandle :=
  if envTruthy dockerBuildkitEnv then buildWithDockerBuildkit runProc imagesGet cfg
  else buildWithDockerClient buildApi cfg

/-- The image store of the engine, as touched by image removal. -/
structure ImageStore where
  images : List String
deriving Repr, DecidableEq

/-- docker_client.client.images.remove(image=id): drops the image from
the engine store, raising ImageNotFound when it is not there. -/
def imagesRemove (imageId : String) (st : ImageStore) : ImageStore × Except PyError Unit :=
  if imageId ∈ st.images then
    ({ images := st.images.filter (fun i => i ≠ imageId) }, .ok ())
  else
    (st, .error ⟨"ImageNotFound", imageId⟩)

/-- EphemeralDockerImage used as a context manager: enter builds the
image and yields its handle to the body; exit calls remove_image
unconditionally; since exit returns None, an exception from the body
propagates after the removal, and an exception from the removal itself
propagates instead, as in Python. When the build raises, the scope was
never entered and exit does not run. -/
def withEphemeralImage {β : Type} (build : ImageStore → ImageStore × Except PyError String)
    (body : String → ImageStore → ImageStore × Except PyError β)
    (st : ImageStore) : ImageStore × Except PyError β :=
  match build st with
  | (st1, .error e) => (st1, .error e)
  | (st1, .ok imageId) =>
    match body imageId st1 with
    | (st2, rBody) =>
      match imagesRemove imageId st2 with
      | (st3, .error e2) => (st3, .error e2)
      | (st3, .ok ()) => (st3, rBody)

/-- Modelled from the spec: the probe engine source
(tomodachi_testcontainers/pytest/async_probes.py) is not part of the
given sources, only its tests are; the check function is modelled as a
function from the attempt index to a result, time in abstract units, and
each run returns the final result together with the cumulative elapsed
time spent waiting. Helper loop of probe_until, structural over the
number of retries still allowed by the time budget: invoke the check; on
success return its result at the current elapsed time; on failure
suspend for one interval and retry, and once no retry is allowed
re-raise the last exception the check raised. -/
def probeUntilAux {α : Type} (check : Nat → Except PyError α) (interval : Nat) :
    Nat → Nat → Nat → Except PyError α × Nat
  | 0, attempt, elapsed => (check attempt, elapsed)
  | fuel + 1, attempt, elapsed =>
    match check attempt with
    | .ok a => (.ok a, elapsed)
    | .error _ => probeUntilAux check interval fuel (attempt + 1) (elapsed + interval)

/-- Modelled from the spec: probe_until(check, probe_interval,
stop_after) repeatedly invokes check at probe_interval spacing, returns
the first success immediately, and on persistent failure retries until
the cumulative elapsed time would exceed stop_after, finally re-raising
the last exception verbatim; attempts therefore happen at elapsed times
0, interval, ..., (stop_after / interval) * interval. -/
def probe_until {α : Type} (check : Nat → Except PyError α)
    (probe_interval stop_after : Nat) : Except PyError α × Nat :=
  probeUntilAux check probe_interval (stop_after / probe_interval) 0 0

/-- Modelled from the spec: helper loop of probe_during_interval,
structural over the number of invocations still to make in the window:
invoke the check; the first failure aborts immediately, re-raising that
exception at the current elapsed time; a success before the window is
over suspends for one interval and continues; the result of the final
invocation is returned. -/
def probeDuringIntervalAux {α : Type} (check : Nat → Except PyError α) (interval : Nat) :
    Nat → Nat → Nat → Except PyError α × Nat
  | 0, attempt, elapsed => (check attempt, elapsed)
  | fuel + 1, attempt, elapsed =>
    match check attempt with
    | .error e => (.error e, elapsed)
    | .ok _ => probeDuringIntervalAux check interval fuel (attempt + 1) (elapsed + interval)

/-- Modelled from the spec: probe_during_interval(check, probe_interval,
stop_after) repeatedly invokes check at probe_interval spacing for the
entire stop_after window; every invocation must succeed, the first
failure aborts immediately and re-raises verbatim, and when all succeed
the call returns successfully. -/
def probe_during_interval {α : Type} (check : Nat → Except PyError α)
    (probe_interval stop_after : Nat) : Except PyError α × Nat :=
  probeDuringIntervalAux check probe_interval (stop_after / probe_interval) 0 0

/-- A concrete engine with one running container, used by witnesses. -/
def engineOne : EngineState :=
  { nextId := 8
    containers := [{ id := 7, logLines := ["line-a", "line-b"], restartCount := 0,
                     networks := [("bridge", { ipAddress := "172.17.0.2", gateway := "172.17.0.1" })] }]
    pulls := ["alpine:latest"] }

/-- A concrete fresh manager over that engine, used by witnesses. -/
def sysFresh : Sys :=
  { engine := engineOne
    mgr := dockerContainerInit "alpine:latest" "Working container started" none none }

/-- A concrete started manager holding container 7, used by witnesses. -/
def sysStarted : Sys :=
  { engine := engineOne
    mgr := { dockerContainerInit "alpine:latest" "Working container started" none none with
             container := some 7 } }

/-- A concrete always-failing check, used by witnesses. -/
def checkAlwaysFail (n : Nat) : Except PyError Nat :=
  .error ⟨"ValueError", "Something went wrong at " ++ toString n⟩

/-- A concrete check failing twice then succeeding, used by witnesses. -/
def checkThirdOk (n : Nat) : Except PyError Bool :=
  if n < 2 then .error ⟨"AssertionError", "assert False"⟩ else .ok true

/-- A concrete check failing on its third call, used by witnesses. -/
def checkThirdFails (n : Nat) : Except PyError Bool :=
  if n = 2 then .error ⟨"ValueError", "Something went wrong"⟩ else .ok true

/-- C1: get_container_host_ip follows exactly the three-step resolution
algorithm of the specification, on every input. -/
theorem C1_host_ip_resolution (host : Option String) (insideContainer : Bool)
    (dockerHostEnv : Option String) (gatewayIp internalIp : String) :
    get_container_host_ip host insideContainer dockerHostEnv gatewayIp internalIp =
      hostIpResolutionSpec host insideContainer dockerHostEnv gatewayIp internalIp := by
  cases host with
  | none => simp [get_container_host_ip, hostIpResolutionSpec, envTruthy]
  | some h =>
    by_cases hh : h = "" <;>
      cases insideContainer <;>
        simp [get_container_host_ip, hostIpResolutionSpec, envTruthy, hh]

theorem logFold_eq (logs : List String) (s : Sys) :
    logs.foldl (fun t l => logInfo l t) s =
      { s with mgr := { s.mgr with loggerLines := s.mgr.loggerLines ++ logs } } := by
  induction logs generalizing s with
  | nil => simp
  | cons l ls ih => rw [List.foldl_cons, ih]; simp [logInfo]

theorem forward_ok_of_live (s : Sys) (h : HandleLive s) :
    forward_container_logs_to_logger s =
      ({ s with mgr := { s.mgr with loggerLines := s.mgr.loggerLines ++ flushedLogs s } },
       .ok ()) := by
  unfold forward_container_logs_to_logger get_wrapped_container flushedLogs
  cases hc : s.mgr.container with
  | none => simp
  | some id =>
    have hsome := h id hc
    unfold engineLogs
    cases hf : findContainer s.engine id with
    | none => rw [hf] at hsome; simp at hsome
    | some c => simp [hf, logFold_eq, Except.toOption]

theorem stop_ok_of_live (s : Sys) (h : HandleLive s) :
    (stop s).2 = .ok () ∧ (stop s).1.mgr.container = none := by
  unfold stop
  rw [forward_ok_of_live s h]
  unfold internalStop baseStop
  cases hc : s.mgr.container with
  | none => simp [hc]
  | some id =>
    have hsome := h id hc
    simp only [hc]
    unfold engineRemove
    cases hf : findContainer s.engine id with
    | none => rw [hf] at hsome; simp at hsome
    | some c =>
      cases hf2 : findContainer { s.engine with
          containers := s.engine.containers } id with
      | none => rw [hf] at hf2; simp at hf2
      | some d => simp

/-- C2: stop is idempotent - on any manager whose held handle (if any)
is still live, in particular on a never-started or just-started one, any
number of successive stop calls completes without raising. -/
theorem C2_stop_idempotent (n : Nat) :
    ∀ s : Sys, HandleLive s → (stopN n s).2 = .ok () := by
  induction n with
  | zero => intro s _; rfl
  | succ n ih =>
    intro s h
    obtain ⟨hok, hnone⟩ := stop_ok_of_live s h
    unfold stopN
    rcases heq : stop s with ⟨t, r⟩
    rw [heq] at hok hnone
    cases r with
    | error e0 => simp at hok
    | ok u =>
      cases u
      exact ih t (fun id hid => by rw [hnone] at hid; cases hid)

/-- Witness for C2 at a started manager and two stop calls. -/
theorem C2_stop_idempotent_witness : (stopN 2 sysStarted).2 = .ok () :=
  C2_stop_idempotent 2 sysStarted (fun id hid => by
    have h7 : id = 7 := by
      simpa [sysStarted, dockerContainerInit] using hid.symm
    subst h7
    decide)

theorem internalStart_none_eq (initLogs : List String) (netAttrs : NetworkAttrs) (s : Sys) :
    internalStart none initLogs netAttrs s =
      ({ engine :=
           { nextId := s.engine.nextId + 1,
             containers := s.engine.containers ++
               [{ id := s.engine.nextId, logLines := initLogs, restartCount := 0,
                  networks := [(s.mgr.superNetworkKwarg, netAttrs)] }],
             pulls := s.engine.pulls ++ [s.mgr.image] },
         mgr :=
           { s.mgr with
             container := some s.engine.nextId,
             loggerLines := s.mgr.loggerLines ++
               ["Pulling image: " ++ s.mgr.image,
                "Container started: " ++ toString s.engine.nextId] } },
       .ok ()) := by
  simp [internalStart, logInfo]

theorem find?_append_self (l : List EngineContainer) (c : EngineContainer) :
    (((l ++ [c]).find? (fun x => x.id = c.id)).isSome) = true := by
  induction l with
  | nil => simp
  | cons x xs ih =>
    by_cases h : x.id = c.id <;> simp [List.find?_cons, h, ih]


/-- C3: any failure inside the try-body of start is re-raised with kind
and message unchanged, and before re-raising the existing container logs
(none when no container is held) are forwarded to the logger. -/
theorem C3_start_flush_and_reraise (runOutcome hookOutcome : Option PyError)
    (initLogs : List String) (netAttrs : NetworkAttrs) (s : Sys) (e : PyError)
    (hc : s.mgr.container = none)
    (hfail : (startTryBody runOutcome hookOutcome initLogs netAttrs s).2 = .error e) :
    (start runOutcome hookOutcome initLogs netAttrs s).2 = Except.error e ∧
    (start runOutcome hookOutcome initLogs netAttrs s).1.mgr.loggerLines =
      (startTryBody runOutcome hookOutcome initLogs netAttrs s).1.mgr.loggerLines ++
        flushedLogs (startTryBody runOutcome hookOutcome initLogs netAttrs s).1 := by
  cases runOutcome with
  | some er =>
    have hbody : startTryBody (some er) hookOutcome initLogs netAttrs s
        = (logInfo ("Pulling image: " ++ s.mgr.image) s, .error er) := by
      simp [startTryBody, internalStart]
    rw [hbody] at hfail
    have he : er = e := by simpa using hfail
    subst he
    have hlive : HandleLive (logInfo ("Pulling image: " ++ s.mgr.image) s) := by
      intro id hid
      rw [show (logInfo ("Pulling image: " ++ s.mgr.image) s).mgr.container = none by
        simp [logInfo, hc]] at hid
      cases hid
    unfold start
    rw [hbody]
    simp [forward_ok_of_live _ hlive]
  | none =>
    cases hookOutcome with
    | none =>
      exfalso
      rw [startTryBody, internalStart_none_eq] at hfail
      simp at hfail
    | some eh =>
      have hbody : startTryBody none (some eh) initLogs netAttrs s
          = ((internalStart none initLogs netAttrs s).1, .error eh) := by
        rw [startTryBody, internalStart_none_eq]
      rw [hbody] at hfail
      have he : eh = e := by simpa using hfail
      subst he
      have hlive : HandleLive (internalStart none initLogs netAttrs s).1 := by
        intro id hid
        rw [internalStart_none_eq] at hid ⊢
        simp only at hid
        have hid2 : s.engine.nextId = id := by simp at hid; exact hid
        subst hid2
        exact find?_append_self s.engine.containers
          { id := s.engine.nextId, logLines := initLogs, restartCount := 0,
            networks := [(s.mgr.superNetworkKwarg, netAttrs)] }
      unfold start
      rw [hbody]
      simp [forward_ok_of_live _ hlive]

/-- Witness for C3 at a concrete engine-reported start failure. -/
theorem C3_start_flush_and_reraise_witness :
    (start (some ⟨"APIError", "exec foo not found"⟩) none ["boot"]
        ⟨"172.17.0.2", "172.17.0.1"⟩ sysFresh).2 =
      Except.error ⟨"APIError", "exec foo not found"⟩ ∧
    (start (some ⟨"APIError", "exec foo not found"⟩) none ["boot"]
        ⟨"172.17.0.2", "172.17.0.1"⟩ sysFresh).1.mgr.loggerLines =
      (startTryBody (some ⟨"APIError", "exec foo not found"⟩) none ["boot"]
          ⟨"172.17.0.2", "172.17.0.1"⟩ sysFresh).1.mgr.loggerLines ++
        flushedLogs (startTryBody (some ⟨"APIError", "exec foo not found"⟩) none ["boot"]
          ⟨"172.17.0.2", "172.17.0.1"⟩ sysFresh).1 :=
  C3_start_flush_and_reraise (some ⟨"APIError", "exec foo not found"⟩) none ["boot"]
    ⟨"172.17.0.2", "172.17.0.1"⟩ sysFresh ⟨"APIError", "exec foo not found"⟩ rfl rfl

theorem bumpRestart_id (id : Nat) (c : EngineContainer) :
    (bumpRestart id c).id = c.id := by
  unfold bumpRestart
  split <;> rfl

theorem find?_map_bumpRestart (l : List EngineContainer) (id : Nat) (c : EngineContainer)
    (h : l.find? (fun x => x.id = id) = some c) :
    (l.map (bumpRestart id)).find? (fun x => x.id = id) = some (bumpRestart id c) := by
  induction l with
  | nil => simp at h
  | cons x xs ih =>
    by_cases hx : x.id = id
    · rw [List.find?_cons_of_pos _ (by simpa using hx)] at h
      cases h
      rw [List.map_cons, List.find?_cons_of_pos _ (by simp [bumpRestart_id, hx])]
    · rw [List.find?_cons_of_neg _ (by simpa using hx)] at h
      rw [List.map_cons, List.find?_cons_of_neg _ (by simp [bumpRestart_id, hx])]
      exact ih h

/-- C9: restarting a started manager succeeds, leaves the whole manager
state unchanged (same handle, no started-message logged), performs no
image pull, and restarts the underlying container process: its restart
count rises by one. -/
theorem C9_restart_preserves_handle (s : Sys) (id : Nat) (c : EngineContainer)
    (hc : s.mgr.container = some id) (hf : findContainer s.engine id = some c) :
    (restart s).2 = .ok () ∧
    (restart s).1.mgr = s.mgr ∧
    (restart s).1.engine.pulls = s.engine.pulls ∧
    findContainer (restart s).1.engine id =
      some { c with restartCount := c.restartCount + 1 } := by
  have hf2 : s.engine.containers.find? (fun x => x.id = id) = some c := by
    simpa [findContainer] using hf
  have hcid : c.id = id := by
    have hp := List.find?_some hf2
    simpa using hp
  unfold restart
  rw [hc]
  simp only [hf]
  refine ⟨trivial, trivial, trivial, ?_⟩
  have hm := find?_map_bumpRestart s.engine.containers id c hf2
  unfold findContainer
  simp only []
  rw [hm]
  simp [bumpRestart, hcid]

/-- Witness for C9 at a concrete started manager. -/
theorem C9_restart_preserves_handle_witness :
    (restart sysStarted).2 = .ok () ∧
    (restart sysStarted).1.mgr = sysStarted.mgr ∧
    (restart sysStarted).1.engine.pulls = sysStarted.engine.pulls ∧
    findContainer (restart sysStarted).1.engine 7 =
      some { id := 7, logLines := ["line-a", "line-b"], restartCount := 1,
             networks := [("bridge", { ipAddress := "172.17.0.2", gateway := "172.17.0.1" })] } :=
  C9_restart_preserves_handle sysStarted 7
    { id := 7, logLines := ["line-a", "line-b"], restartCount := 0,
      networks := [("bridge", { ipAddress := "172.17.0.2", gateway := "172.17.0.1" })] }
    rfl rfl

/-- C10: the network name of a manager is fixed once in init by the
precedence explicit-argument, then environment variable, then the
literal bridge; the same single value is the network keyword forwarded
to the base class, the key of the network entry the container created by
a successful start is attached to, and the lookup key both per-network
attribute readers use. -/
theorem C10_network_single_value (image msg : String) (networkArg envNetwork : Option String) :
    (dockerContainerInit image msg networkArg envNetwork).network =
      (if envTruthy networkArg then networkArg.getD ""
       else if envTruthy envNetwork then envNetwork.getD "" else "bridge") ∧
    (dockerContainerInit image msg networkArg envNetwork).superNetworkKwarg =
      (dockerContainerInit image msg networkArg envNetwork).network ∧
    (∀ (eng : EngineState) (initLogs : List String) (netAttrs : NetworkAttrs),
      (internalStart none initLogs netAttrs
          ⟨eng, dockerContainerInit image msg networkArg envNetwork⟩).1.engine.containers =
        eng.containers ++
          [{ id := eng.nextId, logLines := initLogs, restartCount := 0,
             networks := [((dockerContainerInit image msg networkArg envNetwork).network,
                           netAttrs)] }]) ∧
    (∀ (eng : EngineState) (cont : Option Nat) (lines : List String) (id : Nat)
        (c : EngineContainer),
      cont = some id → findContainer eng id = some c →
      get_container_internal_ip
          ⟨eng, { dockerContainerInit image msg networkArg envNetwork with
                  container := cont, loggerLines := lines }⟩ =
        (match c.networks.lookup (dockerContainerInit image msg networkArg envNetwork).network with
         | none =>
             .error ⟨"KeyError", (dockerContainerInit image msg networkArg envNetwork).network⟩
         | some a => .ok a.ipAddress) ∧
      get_container_gateway_ip
          ⟨eng, { dockerContainerInit image msg networkArg envNetwork with
                  container := cont, loggerLines := lines }⟩ =
        (match c.networks.lookup (dockerContainerInit image msg networkArg envNetwork).network with
         | none =>
             .error ⟨"KeyError", (dockerContainerInit image msg networkArg envNetwork).network⟩
         | some a => .ok a.gateway)) := by
  refine ⟨rfl, rfl, ?_, ?_⟩
  · intro eng initLogs netAttrs
    rw [internalStart_none_eq]
    rfl
  · intro eng cont lines id c hcont hfind
    subst hcont
    constructor
    · unfold get_container_internal_ip
      simp only [hfind]
    · unfold get_container_gateway_ip
      simp only [hfind]

/-- Witness for C10 at concrete arguments: no explicit network, an
environment override set, and a container attached only to the default
bridge network, so that both readers fail on the override key. -/
theorem C10_network_single_value_witness :
    (dockerContainerInit "alpine:latest" "started" none (some "testnet")).network =
      "testnet" ∧
    get_container_internal_ip
        ⟨engineOne, { dockerContainerInit "alpine:latest" "started" none (some "testnet") with
                      container := some 7, loggerLines := [] }⟩ =
      .error ⟨"KeyError", "testnet"⟩ ∧
    get_container_gateway_ip
        ⟨engineOne, { dockerContainerInit "alpine:latest" "started" none (some "testnet") with
                      container := some 7, loggerLines := [] }⟩ =
      .error ⟨"KeyError", "testnet"⟩ := by
  obtain ⟨h1, h2, h3, h4⟩ :=
    C10_network_single_value "alpine:latest" "started" none (some "testnet")
  have h5 := h4 engineOne (some 7) [] 7
    { id := 7, logLines := ["line-a", "line-b"], restartCount := 0,
      networks := [("bridge", { ipAddress := "172.17.0.2", gateway := "172.17.0.1" })] }
    rfl rfl
  exact ⟨h1.trans rfl, h5.1.trans rfl, h5.2.trans rfl⟩

theorem probeUntilAux_fail {α : Type} (check : Nat → Except PyError α) (interval : Nat)
    (hfail : ∀ n, ∃ e, check n = .error e) :
    ∀ (fuel attempt elapsed : Nat),
      probeUntilAux check interval fuel attempt elapsed =
        (check (attempt + fuel), elapsed + fuel * interval) := by
  intro fuel
  induction fuel with
  | zero => intro attempt elapsed; simp [probeUntilAux]
  | succ f ih =>
    intro attempt elapsed
    obtain ⟨e, he⟩ := hfail attempt
    rw [probeUntilAux, he, ih (attempt + 1) (elapsed + interval)]
    rw [Prod.mk.injEq]
    constructor
    · congr 1
      omega
    · rw [Nat.succ_mul]
      omega

theorem probeUntilAux_firstOk {α : Type} (check : Nat → Except PyError α) (interval : Nat)
    (a : α) :
    ∀ (fuel k attempt elapsed : Nat), k ≤ fuel →
      check (attempt + k) = .ok a →
      (∀ m, m < k → ∃ e, check (attempt + m) = .error e) →
      probeUntilAux check interval fuel attempt elapsed = (.ok a, elapsed + k * interval) := by
  intro fuel
  induction fuel with
  | zero =>
    intro k attempt elapsed hk hok _
    have hk0 : k = 0 := Nat.le_zero.mp hk
    subst hk0
    simp at hok
    simp [probeUntilAux, hok]
  | succ f ih =>
    intro k attempt elapsed hk hok hprev
    cases k with
    | zero =>
      simp at hok
      rw [probeUntilAux, hok]
      simp
    | succ m =>
      obtain ⟨e, he⟩ := hprev 0 (Nat.succ_pos m)
      rw [Nat.add_zero] at he
      rw [probeUntilAux, he]
      rw [ih m (attempt + 1) (elapsed + interval) (Nat.succ_le_succ_iff.mp hk)
        (by rw [show attempt + 1 + m = attempt + (m + 1) by omega]; exact hok)
        (fun j hj => by
          rw [show attempt + 1 + j = attempt + (j + 1) by omega]
          exact hprev (j + 1) (Nat.succ_lt_succ hj))]
      rw [Prod.mk.injEq]
      refine ⟨rfl, ?_⟩
      rw [Nat.succ_mul]
      omega

/-- C4: spec-modelled probe_until - with an always-failing check, the
attempts run at probe_interval spacing until the elapsed time would
exceed stop_after, and the exception of the final attempt is re-raised
with kind and message unchanged; any first-succeeding attempt inside the
budget makes probe_until return that result at once, with no further
waiting. -/
theorem C4_probe_until_retry_and_reraise {α : Type} (check : Nat → Except PyError α)
    (i s : Nat) (hi : 0 < i) :
    ((∀ n, ∃ e, check n = .error e) →
      ∃ e, check (s / i) = .error e ∧
        probe_until check i s = (.error e, (s / i) * i) ∧
        (s / i) * i ≤ s ∧ s < (s / i + 1) * i) ∧
    (∀ k a, check k = .ok a → (∀ m, m < k → ∃ e, check m = .error e) → k ≤ s / i →
      probe_until check i s = (.ok a, k * i)) := by
  constructor
  · intro hfail
    obtain ⟨e, he⟩ := hfail (s / i)
    refine ⟨e, he, ?_, Nat.div_mul_le_self s i, ?_⟩
    · unfold probe_until
      rw [probeUntilAux_fail check i hfail (s / i) 0 0]
      rw [Nat.zero_add, Nat.zero_add, he]
    · have h1 := Nat.div_add_mod s i
      have h2 : s % i < i := Nat.mod_lt _ hi
      have h3 : (s / i + 1) * i = s / i * i + i := Nat.succ_mul _ _
      have h4 : i * (s / i) = s / i * i := Nat.mul_comm _ _
      omega
  · intro k a hok hprev hk
    unfold probe_until
    rw [probeUntilAux_firstOk check i a (s / i) k 0 0 hk (by rw [Nat.zero_add]; exact hok)
      (fun m hm => by rw [Nat.zero_add]; exact hprev m hm)]
    rw [Nat.zero_add]

/-- Witness for C4: a check failing twice then succeeding, interval 1,
budget 3, returns the success at elapsed time 2. -/
theorem C4_probe_until_witness : probe_until checkThirdOk 1 3 = (.ok true, 2 * 1) :=
  (C4_probe_until_retry_and_reraise checkThirdOk 1 3 (by decide)).2 2 true rfl
    (fun m hm => ⟨⟨"AssertionError", "assert False"⟩, by
      unfold checkThirdOk; rw [if_pos hm]⟩)
    (by decide)

theorem probeDuringAux_firstFail {α : Type} (check : Nat → Except PyError α) (interval : Nat)
    (e : PyError) :
    ∀ (fuel k attempt elapsed : Nat), k ≤ fuel →
      check (attempt + k) = .error e →
      (∀ m, m < k → ∃ a, check (attempt + m) = .ok a) →
      probeDuringIntervalAux check interval fuel attempt elapsed =
        (.error e, elapsed + k * interval) := by
  intro fuel
  induction fuel with
  | zero =>
    intro k attempt elapsed hk herr _
    have hk0 : k = 0 := Nat.le_zero.mp hk
    subst hk0
    simp at herr
    simp [probeDuringIntervalAux, herr]
  | succ f ih =>
    intro k attempt elapsed hk herr hprev
    cases k with
    | zero =>
      simp at herr
      rw [probeDuringIntervalAux, herr]
      simp
    | succ m =>
      obtain ⟨a, ha⟩ := hprev 0 (Nat.succ_pos m)
      rw [Nat.add_zero] at ha
      rw [probeDuringIntervalAux, ha]
      rw [ih m (attempt + 1) (elapsed + interval) (Nat.succ_le_succ_iff.mp hk)
        (by rw [show attempt + 1 + m = attempt + (m + 1) by omega]; exact herr)
        (fun j hj => by
          rw [show attempt + 1 + j = attempt + (j + 1) by omega]
          exact hprev (j + 1) (Nat.succ_lt_succ hj))]
      rw [Prod.mk.injEq]
      refine ⟨rfl, ?_⟩
      rw [Nat.succ_mul]
      omega

theorem probeDuringAux_allOk {α : Type} (check : Nat → Except PyError α) (interval : Nat) :
    ∀ (fuel attempt elapsed : Nat),
      (∀ m, m < fuel → ∃ a, check (attempt + m) = .ok a) →
      probeDuringIntervalAux check interval fuel attempt elapsed =
        (check (attempt + fuel), elapsed + fuel * interval) := by
  intro fuel
  induction fuel with
  | zero => intro attempt elapsed _; simp [probeDuringIntervalAux]
  | succ f ih =>
    intro attempt elapsed hok
    obtain ⟨a, ha⟩ := hok 0 (Nat.succ_pos f)
    rw [Nat.add_zero] at ha
    rw [probeDuringIntervalAux, ha]
    rw [ih (attempt + 1) (elapsed + interval)
      (fun j hj => by
        rw [show attempt + 1 + j = attempt + (j + 1) by omega]
        exact hok (j + 1) (Nat.succ_lt_succ hj))]
    rw [Prod.mk.injEq]
    constructor
    · congr 1
      omega
    · rw [Nat.succ_mul]
      omega

/-- C5: spec-modelled probe_during_interval - the first failing
invocation aborts the probe at its own elapsed time, re-raising that
exception with kind and message unchanged and never retrying; when every
invocation of the window succeeds the call returns the final result
successfully after the whole window. -/
theorem C5_probe_during_interval_abort {α : Type} (check : Nat → Except PyError α)
    (i s : Nat) :
    (∀ k e, check k = .error e → (∀ m, m < k → ∃ a, check m = .ok a) → k ≤ s / i →
      probe_during_interval check i s = (.error e, k * i)) ∧
    ((∀ n, n ≤ s / i → ∃ a, check n = .ok a) →
      ∃ a, check (s / i) = .ok a ∧
        probe_during_interval check i s = (.ok a, (s / i) * i)) := by
  constructor
  · intro k e herr hprev hk
    unfold probe_during_interval
    rw [probeDuringAux_firstFail check i e (s / i) k 0 0 hk
      (by rw [Nat.zero_add]; exact herr)
      (fun m hm => by rw [Nat.zero_add]; exact hprev m hm)]
    rw [Nat.zero_add]
  · intro hok
    obtain ⟨a, ha⟩ := hok (s / i) (Nat.le_refl _)
    refine ⟨a, ha, ?_⟩
    unfold probe_during_interval
    rw [probeDuringAux_allOk check i (s / i) 0 0
      (fun m hm => by rw [Nat.zero_add]; exact hok m (Nat.le_of_lt hm))]
    rw [Nat.zero_add, Nat.zero_add, ha]

/-- Witness for C5: a check failing on its third call, interval 1,
window 4, aborts at elapsed time 2 with the original exception. -/
theorem C5_probe_during_interval_witness :
    probe_during_interval checkThirdFails 1 4 =
      (.error ⟨"ValueError", "Something went wrong"⟩, 2 * 1) :=
  (C5_probe_during_interval_abort checkThirdFails 1 4).1 2
    ⟨"ValueError", "Something went wrong"⟩ rfl
    (fun m hm => ⟨true, by unfold checkThirdFails; rw [if_neg (by omega)]⟩)
    (by decide)

/-- C6: build_image selects exactly one of two strategies on the single
DOCKER_BUILDKIT toggle: when it is truthy the build shells out to the
external builder CLI, and when it is absent the native engine build API
is called with the dockerfile path, the build context path, the optional
build target, and forced intermediate-container removal. -/
theorem C6_build_image_strategy (dockerBuildkitEnv : Option String)
    (runProc : List String → ProcResult)
    (buildApi : BuildApiCall → Except PyError DockerImageHandle)
    (imagesGet : String → Except PyError DockerImageHandle)
    (cfg : EphemeralImageCfg) :
    (envTruthy dockerBuildkitEnv = true →
      build_image dockerBuildkitEnv runProc buildApi imagesGet cfg =
        buildWithDockerBuildkit runProc imagesGet cfg) ∧
    (envTruthy dockerBuildkitEnv = false →
      build_image dockerBuildkitEnv runProc buildApi imagesGet cfg =
        buildApi { dockerfile := cfg.dockerfile, path := cfg.context,
                   target := cfg.target, forcerm := true }) := by
  constructor <;> intro h <;> simp [build_image, buildWithDockerClient, h]

/-- Witness for C6 at a set and an absent toggle. -/
theorem C6_build_image_strategy_witness :
    build_image (some "1") (fun _ => ⟨0, "sha256:abc"⟩) (fun _ => .ok ⟨"api"⟩)
        (fun i => .ok ⟨i⟩) (ephemeralImageInit (some "Dockerfile") none none) =
      buildWithDockerBuildkit (fun _ => ⟨0, "sha256:abc"⟩) (fun i => .ok ⟨i⟩)
        (ephemeralImageInit (some "Dockerfile") none none) ∧
    build_image none (fun _ => ⟨0, "sha256:abc"⟩) (fun _ => .ok ⟨"api"⟩)
        (fun i => .ok ⟨i⟩) (ephemeralImageInit (some "Dockerfile") none none) =
      (fun (_ : BuildApiCall) => (.ok ⟨"api"⟩ : Except PyError DockerImageHandle))
        { dockerfile := (ephemeralImageInit (some "Dockerfile") none none).dockerfile,
          path := (ephemeralImageInit (some "Dockerfile") none none).context,
          target := (ephemeralImageInit (some "Dockerfile") none none).target,
          forcerm := true } :=
  ⟨(C6_build_image_strategy (some "1") (fun _ => ⟨0, "sha256:abc"⟩) (fun _ => .ok ⟨"api"⟩)
      (fun i => .ok ⟨i⟩) (ephemeralImageInit (some "Dockerfile") none none)).1 rfl,
   (C6_build_image_strategy none (fun _ => ⟨0, "sha256:abc"⟩) (fun _ => .ok ⟨"api"⟩)
      (fun i => .ok ⟨i⟩) (ephemeralImageInit (some "Dockerfile") none none)).2 rfl⟩

/-- C7: the external-builder strategy invokes the CLI as docker build -q
--rm=true, with -f dockerfile only when a dockerfile is given, --target
stage only when a target is given, and the build context last; on exit 0
the image identifier is the stripped standard output resolved through
the engine client, and a non-zero exit raises instead of returning a
handle. -/
theorem C7_buildkit_cli (runProc : List String → ProcResult)
    (imagesGet : String → Except PyError DockerImageHandle) (cfg : EphemeralImageCfg) :
    (∀ d t, cfg.dockerfile = some d → d ≠ "" → cfg.target = some t → t ≠ "" →
      buildkitCmd cfg =
        ["docker", "build", "-q", "--rm=true", "-f", d, "--target", t, cfg.context]) ∧
    (∀ d, cfg.dockerfile = some d → d ≠ "" → envTruthy cfg.target = false →
      buildkitCmd cfg = ["docker", "build", "-q", "--rm=true", "-f", d, cfg.context]) ∧
    (∀ t, envTruthy cfg.dockerfile = false → cfg.target = some t → t ≠ "" →
      buildkitCmd cfg = ["docker", "build", "-q", "--rm=true", "--target", t, cfg.context]) ∧
    (envTruthy cfg.dockerfile = false → envTruthy cfg.target = false →
      buildkitCmd cfg = ["docker", "build", "-q", "--rm=true", cfg.context]) ∧
    ((runProc (buildkitCmd cfg)).exitCode = 0 →
      buildWithDockerBuildkit runProc imagesGet cfg =
        imagesGet (runProc (buildkitCmd cfg)).stdout.trim) ∧
    ((runProc (buildkitCmd cfg)).exitCode ≠ 0 →
      buildWithDockerBuildkit runProc imagesGet cfg =
        .error ⟨"CalledProcessError",
          "non-zero exit status " ++ toString (runProc (buildkitCmd cfg)).exitCode⟩) := by
  refine ⟨?_, ?_, ?_, ?_, ?_, ?_⟩
  · intro d t hd hdne ht htne
    simp [buildkitCmd, envTruthy, hd, ht, hdne, htne]
  · intro d hd hdne ht
    simp [buildkitCmd, envTruthy, hd, hdne, ht]
    simp [envTruthy] at ht
    simp [ht]
  · intro t hd ht htne
    simp [envTruthy] at hd
    simp [buildkitCmd, envTruthy, hd, ht, htne]
  · intro hd ht
    simp [envTruthy] at hd ht
    simp [buildkitCmd, envTruthy, hd, ht]
  · intro h0
    simp [buildWithDockerBuildkit, h0]
  · intro hne
    simp [buildWithDockerBuildkit, hne]

/-- Witness for C7 at a dockerfile plus target configuration with a
clean exit. -/
theorem C7_buildkit_cli_witness :
    buildkitCmd (ephemeralImageInit (some "Dockerfile") (some "/ctx") (some "release")) =
      ["docker", "build", "-q", "--rm=true", "-f", "Dockerfile",
       "--target", "release", "/ctx"] :=
  (C7_buildkit_cli (fun _ => ⟨0, " sha256:abc \n"⟩) (fun i => .ok ⟨i⟩)
      (ephemeralImageInit (some "Dockerfile") (some "/ctx") (some "release"))).1
    "Dockerfile" "release" rfl (by decide) rfl (by decide)

/-- C8: once the scope of an EphemeralDockerImage was entered (the build
succeeded and yielded the image identifier), exiting removes the image
from the engine store no matter what the body did - returned normally or
raised. -/
theorem C8_scope_removes_image {β : Type}
    (build : ImageStore → ImageStore × Except PyError String)
    (body : String → ImageStore → ImageStore × Except PyError β)
    (st st1 : ImageStore) (imageId : String)
    (hbuild : build st = (st1, .ok imageId)) :
    imageId ∉ (withEphemeralImage build body st).1.images := by
  unfold withEphemeralImage imagesRemove
  rcases hb : body imageId st1 with ⟨st2, rBody⟩
  rw [hbuild]
  simp only [hb]
  by_cases hmem : imageId ∈ st2.images
  · simp [hmem, List.mem_filter]
  · simp [hmem]

/-- Witness for C8 with a body that raises after a successful build. -/
theorem C8_scope_removes_image_witness :
    "img1" ∉ (withEphemeralImage
        (fun st => ({ images := st.images ++ ["img1"] }, .ok "img1"))
        (fun _ st => (st, (.error ⟨"RuntimeError", "boom"⟩ : Except PyError Unit)))
        { images := [] }).1.images :=
  C8_scope_removes_image
    (fun st => ({ images := st.images ++ ["img1"] }, .ok "img1"))
    (fun _ st => (st, .error ⟨"RuntimeError", "boom"⟩))
    { images := [] } { images := ["img1"] } "img1" rfl
